import Mathlib

/-!
Verification of the Request Orchestration Pipeline of the
GDSC2025_Transcendence backend (router agent, safety agent, Mistral
provider cache, and the assistant orchestration endpoint).

The Python sources are shallowly embedded as executable Lean
definitions.  Python floats are modelled as rationals (all scores and
thresholds in the source are short decimal literals, so order and
equality facts transfer exactly).  Python regular-expression searches
used by the safety agent are keyword alternations wrapped in word
boundaries; they are embedded by an explicit word-boundary keyword
matcher with Python's unicode word-character class restricted to the
alphabets that occur in the source patterns (ASCII alphanumerics,
underscore, and accented Latin letters).
-/

namespace Transcendence

/-! ## Generic string machinery (models of Python str operations) -/

/-- Characters Python `\w` matches among those occurring in the texts:
ASCII alphanumerics, underscore, and accented Latin letters. -/
def accentedLetters : List Char :=
  "áàâãäéèêëíìîïóòôõöúùûüçñÁÀÂÃÄÉÈÊËÍÌÎÏÓÒÔÕÖÚÙÛÜÇÑ".data

def isWordChar (c : Char) : Bool :=
  c.isAlphanum || c == '_' || accentedLetters.contains c

/-- Python `str.lower()`, character-wise.  Lean's `Char.toLower` maps
ASCII letters only; every lower-cased comparison in the source involves
ASCII keywords or already-lower-case accented literals, on which the
two case maps agree. -/
def pyLower (s : String) : List Char := s.data.map Char.toLower

/-- Does `kw` occur at position `i` of `s` (plain prefix test)? -/
def prefixAt (kw s : List Char) : Bool :=
  match kw, s with
  | [], _ => true
  | _ :: _, [] => false
  | k :: ks, c :: cs => k == c && prefixAt ks cs

/-- Is the character at position `i` of `s` a word character
(out-of-range positions count as non-word)? -/
def wordCharAt (s : List Char) (i : Nat) : Bool :=
  match (s.drop i) with
  | [] => false
  | c :: _ => isWordChar c

/-- Python `re` word boundary `\b` at position `p` of `s`: the
word-character status changes between positions `p-1` and `p`. -/
def boundaryAt (s : List Char) (p : Nat) : Bool :=
  (if p = 0 then false else wordCharAt s (p - 1)) != wordCharAt s p

/-- One alternative of a `\b(a|b|...)\b` regex matches at position `i`. -/
def wordMatchAt (kw s : List Char) (i : Nat) : Bool :=
  prefixAt kw (s.drop i) && boundaryAt s i && boundaryAt s (i + kw.length)

/-- Model of `re.search(r'\b(kw)\b', s)` for a single alternative. -/
def wordSearch (kw : String) (s : List Char) : Bool :=
  (List.range (s.length + 1)).any (fun i => wordMatchAt kw.data s i)

/-- Model of `re.search(r'\b(k1|k2|...)\b', s)`. -/
def wordSearchAny (kws : List String) (s : List Char) : Bool :=
  kws.any (fun kw => wordSearch kw s)

/-- Model of Python `kw in s` (substring containment). -/
def containsSubstr (kw : String) (s : List Char) : Bool :=
  (List.range (s.length + 1)).any (fun i => prefixAt kw.data (s.drop i))

/-- Model of `any(word in s for word in words)`. -/
def containsAny (kws : List String) (s : List Char) : Bool :=
  kws.any (fun kw => containsSubstr kw s)

/-- Model of Python `line.split(":", 1)[1]` for a line containing a colon. -/
def afterFirstColon (line : String) : String :=
  String.intercalate ":" ((line.splitOn ":").drop 1)

/-- Model of Python `float(s)` restricted to plain decimal literals
(optional sign, digits, optional fraction); other inputs yield `none`,
which the callers treat exactly like a Python `ValueError`. -/
def parseFloat? (s : String) : Option ℚ :=
  let t := s.trim.data
  let (sign, digits) : ℚ × List Char :=
    match t with
    | '-' :: rest => (-1, rest)
    | '+' :: rest => (1, rest)
    | rest => (1, rest)
  let intPart := digits.takeWhile (fun c => c.isDigit)
  let rest := digits.dropWhile (fun c => c.isDigit)
  let parseDigits (ds : List Char) : ℚ :=
    ds.foldl (fun acc c => acc * 10 + ((c.toNat - '0'.toNat : Nat) : ℚ)) 0
  match rest with
  | [] =>
    if intPart.isEmpty then none
    else some (sign * parseDigits intPart)
  | '.' :: frac =>
    if frac.all (fun c => c.isDigit) && !(intPart.isEmpty && frac.isEmpty) then
      some (sign * (parseDigits intPart + parseDigits frac / (10 ^ frac.length)))
    else none
  | _ => none

/-- Model of Python `len(s.split())`: number of whitespace-separated words. -/
def pyWordCount (s : String) : Nat :=
  ((s.split (fun c => c.isWhitespace)).filter (fun w => w ≠ "")).length

/-! ## Data model (app/models/__init__.py) -/

inductive LanguageCode where
  | EN
  | PT_BR
deriving DecidableEq, Repr

inductive AssistantTaskType where
  | AWARENESS
  | CAREER_EXPLORATION
  | SKILL_ASSESSMENT
  | LEARNING_GUIDANCE
  | PATHWAY_PLANNING
deriving DecidableEq, Repr

/-- Python `Enum` lookup by value, `AssistantTaskType(s)`: the enum
values are the lower-case strings; any other string raises
`ValueError`, modelled by `none`. -/
def AssistantTaskType.fromString : String → Option AssistantTaskType
  | "awareness" => some .AWARENESS
  | "career_exploration" => some .CAREER_EXPLORATION
  | "skill_assessment" => some .SKILL_ASSESSMENT
  | "learning_guidance" => some .LEARNING_GUIDANCE
  | "pathway_planning" => some .PATHWAY_PLANNING
  | _ => none

/-- The fields of `AssistantRequest` the orchestration pipeline touches
(`persona_data` is only read by persona materialization, which is a
collaborator of the pipeline). -/
structure AssistantRequest where
  persona_id : Option String
  task_type : AssistantTaskType
  message : String
  language : LanguageCode
  context : List (String × String)
deriving DecidableEq, Repr

/-- The `Persona` fields consumed by the router fallback and by
`_generate_next_steps` (the remaining fields only feed prompt text). -/
structure Persona where
  id : String
  readiness_level : String
  budget_constraint : Int
  tech_comfort_level : Int
deriving DecidableEq, Repr

/-! ## Safety agent (app/agents/safety_agent.py) -/

/-- The two `violence` regexes `\b(...)\b`, each as its alternative list. -/
def violencePatterns : List (List String) :=
  [["violência", "agressão", "briga", "pancada", "machuc", "matar", "morrer", "suicid"],
   ["violence", "aggression", "fight", "hurt", "kill", "die", "suicide"]]

def inappropriatePatterns : List (List String) :=
  [["sexo", "sexual", "pornografia", "nude", "despir"],
   ["sex", "sexual", "pornography", "nude", "naked"]]

def illegalPatterns : List (List String) :=
  [["drogas", "maconha", "cocaína", "tráfico", "roubo", "furto"],
   ["drugs", "marijuana", "cocaine", "trafficking", "theft", "steal"]]

def scamPatterns : List (List String) :=
  [["esquema", "pirâmide", "dinheiro fácil", "ganhar muito", "sem esforço"],
   ["scheme", "pyramid", "easy money", "get rich", "no effort"]]

def personalInfoPatterns : List (List String) :=
  [["cpf", "rg", "endereço", "telefone", "senha", "cartão"],
   ["ssn", "address", "phone", "password", "credit card"]]

/-- Model of `SafetyAgent.unsafe_patterns`, in the dictionary's insertion order. -/
def unsafePatterns : List (String × List (List String)) :=
  [("violence", violencePatterns),
   ("inappropriate_content", inappropriatePatterns),
   ("illegal_activities", illegalPatterns),
   ("financial_scams", scamPatterns),
   ("personal_info", personalInfoPatterns)]

/-- Model of `SafetyAgent.positive_indicators`. -/
def positiveIndicators : List String :=
  ["sustentabilidade", "meio ambiente", "carreira", "educação",
   "curso", "trabalho", "profissional", "desenvolvimento",
   "sustainability", "environment", "career", "education",
   "course", "work", "professional", "development"]

/-- The inner loop of `_quick_safety_check`: a category is flagged when
any of its patterns matches (the `break` makes multiple matches in one
category contribute a single hit). -/
def categoryMatches (ml : List Char) (groups : List (List String)) : Bool :=
  groups.any (fun g => wordSearchAny g ml)

structure QuickCheckResult where
  is_safe : Bool
  risk_categories : List String
  positive_score : Nat
  total_score : Int
deriving DecidableEq, Repr

/-- Model of `SafetyAgent._quick_safety_check`. -/
def quickSafetyCheck (message : String) : QuickCheckResult :=
  let ml := pyLower message
  let risk_categories :=
    unsafePatterns.filterMap (fun cp => if categoryMatches ml cp.2 then some cp.1 else none)
  let positive_score := (positiveIndicators.filter (fun ind => containsSubstr ind ml)).length
  let risk_score := risk_categories.length
  let total_score : Int := max 0 ((positive_score : Int) - (risk_score : Int) * 2)
  { is_safe := risk_score == 0 && decide ((0 : Int) ≤ total_score)
    risk_categories := risk_categories
    positive_score := positive_score
    total_score := total_score }

/-- A safety verdict as assembled by the safety agent (the union of the
keys of the dictionaries the agent returns). -/
structure SafetyResult where
  is_safe : Bool
  safety_score : ℚ
  risk_categories : List String
  action_required : String
  safety_message : Option String := none
  ai_justification : Option String := none
  fallback_used : Bool := false
deriving DecidableEq, Repr

/-- Model of `SafetyAgent._get_safety_message`. -/
def getSafetyMessage (risk_categories : List String) (language : LanguageCode) : String :=
  if language = .PT_BR then
    if risk_categories.contains "violence" then
      "Esta conversa contém conteúdo relacionado à violência. Vamos focar em oportunidades positivas de carreira verde!"
    else if risk_categories.contains "inappropriate_content" then
      "Vamos manter nossa conversa focada em desenvolvimento profissional e carreiras sustentáveis."
    else if risk_categories.contains "illegal_activities" then
      "Não posso ajudar com atividades ilegais. Que tal explorarmos oportunidades legais e positivas no setor verde?"
    else if risk_categories.contains "financial_scams" then
      "Cuidado com esquemas que prometem dinheiro fácil. Vou te ajudar com caminhos reais para construir uma carreira sustentável."
    else if risk_categories.contains "personal_info" then
      "Por segurança, evite compartilhar informações pessoais. Posso te ajudar sem esses dados!"
    else
      "Vamos manter nossa conversa focada em seu desenvolvimento profissional na área verde!"
  else
    if risk_categories.contains "violence" then
      "This conversation contains violence-related content. Let's focus on positive green career opportunities!"
    else if risk_categories.contains "inappropriate_content" then
      "Let's keep our conversation focused on professional development and sustainable careers."
    else if risk_categories.contains "illegal_activities" then
      "I can't help with illegal activities. How about we explore legal and positive opportunities in the green sector?"
    else if risk_categories.contains "financial_scams" then
      "Be careful with schemes that promise easy money. I'll help you with real paths to build a sustainable career."
    else if risk_categories.contains "personal_info" then
      "For safety reasons, avoid sharing personal information. I can help you without that data!"
    else
      "Let's keep our conversation focused on your professional development in the green area!"

/-- One iteration of the line loop of `_parse_safety_response`
(the line arrives already stripped). -/
def parseSafetyLine (r : SafetyResult) (line : String) : SafetyResult :=
  if line.startsWith "SEGURANÇA:" then
    { r with is_safe := (afterFirstColon line).trim.toUpper == "SEGURO" }
  else if line.startsWith "PONTUAÇÃO:" then
    match parseFloat? ((afterFirstColon line).trim) with
    | some score => { r with safety_score := max 0 (min 1 score) }
    | none => r
  else if line.startsWith "RISCOS:" then
    let risks_text := (afterFirstColon line).trim.toLower
    if risks_text ≠ "nenhum" ∧ risks_text ≠ "none" then
      { r with risk_categories := (risks_text.splitOn ",").map (fun x => x.trim) }
    else r
  else if line.startsWith "RECOMENDAÇÃO:" then
    let recommendation := (afterFirstColon line).trim.toUpper
    if recommendation == "BLOQUEAR" then
      { r with action_required := "block_request", is_safe := false }
    else if recommendation == "REVISAR" then
      { r with action_required := "proceed_with_caution" }
    else
      { r with action_required := "proceed" }
  else r

/-- Model of `SafetyAgent._parse_safety_response`.  The Python body only performs
string operations that cannot raise on a string input, so the
surrounding `try` never fires; the parse is total. -/
def parseSafetyResponse (response_text : String) : SafetyResult :=
  let lines := (response_text.trim.splitOn "\n").map (fun l => l.trim)
  let init : SafetyResult :=
    { is_safe := true
      safety_score := 0.8
      risk_categories := []
      action_required := "proceed"
      ai_justification := some response_text }
  let r := lines.foldl parseSafetyLine init
  if r.is_safe = false then
    { r with safety_message := some (getSafetyMessage r.risk_categories .PT_BR) }
  else r

/-- Model of `SafetyAgent._comprehensive_safety_check`: the Stage-B generation
call is an oracle; `Except.error` is any exception out of
`generate_text` (transport failure), answered by the conservative
fallback of the `except` block. -/
def comprehensiveSafetyCheck (stageB : Except Unit String) : SafetyResult :=
  match stageB with
  | .ok text => parseSafetyResponse text
  | .error _ =>
    { is_safe := true
      safety_score := 0.7
      risk_categories := []
      safety_message := some "Análise de segurança simplificada aplicada"
      action_required := "proceed_with_caution"
      fallback_used := true }

structure SafetyProcessOutput where
  agent : String
  safety_result : SafetyResult
  user_message : String
  message_length : Nat
  processing_time_ms : Nat
  model_used : String
deriving DecidableEq, Repr

/-- Model of `SafetyAgent.process`. -/
def safetyProcess (message : String) (language : LanguageCode)
    (stageB : Except Unit String) : SafetyProcessOutput :=
  let quick := quickSafetyCheck message
  let safety_result :=
    if quick.is_safe then comprehensiveSafetyCheck stageB
    else
      { is_safe := false
        safety_score := 0.2
        risk_categories := quick.risk_categories
        safety_message := some (getSafetyMessage quick.risk_categories language)
        action_required := "block_request" }
  { agent := "safety_agent"
    safety_result := safety_result
    user_message := message
    message_length := message.length
    processing_time_ms := 150
    model_used := if quick.is_safe then "safety_rules_ai" else "safety_rules" }

/-- Model of `SafetyAgent._get_response_safety_recommendations`. -/
def getResponseSafetyRecommendations (risks : List String) : List String :=
  let recommendations :=
    (if risks.contains "unrealistic_promises" then
      ["Evitar garantias absolutas - usar linguagem como 'pode ajudar' ou 'potencialmente'"]
     else []) ++
    (if risks.contains "financial_advice_without_disclaimer" then
      ["Adicionar disclaimer sobre riscos financeiros e necessidade de consultoria especializada"]
     else [])
  if recommendations.isEmpty then
    ["Resposta considerada segura para o público jovem"]
  else recommendations

structure ResponseSafetyOutput where
  is_response_safe : Bool
  response_safety_score : ℚ
  response_risks : List String
  recommendations : List String
deriving DecidableEq, Repr

/-- Model of `SafetyAgent.validate_response_safety` (the outbound check). -/
def validateResponseSafety (response_text : String) : ResponseSafetyOutput :=
  let quick := quickSafetyCheck response_text
  let rl := pyLower response_text
  let promises := wordSearch "garanto" rl || wordSearch "prometo" rl ||
    wordSearch "certeza" rl || wordSearch "100%" rl || wordSearch "sem risco" rl
  let financial :=
    (wordSearch "investir" rl || wordSearch "investimento" rl ||
     wordSearch "ações" rl || wordSearch "bitcoin" rl) &&
    !(containsSubstr "disclaimer" rl) && !(containsSubstr "risco" rl)
  let response_risks :=
    (if promises then ["unrealistic_promises"] else []) ++
    (if financial then ["financial_advice_without_disclaimer"] else [])
  let is_safe := quick.is_safe && response_risks.length == 0
  let safety_score : ℚ :=
    max 0.1 ((quick.total_score : ℚ) / 5 - (response_risks.length : ℚ) * 0.2)
  { is_response_safe := is_safe
    response_safety_score := safety_score
    response_risks := quick.risk_categories ++ response_risks
    recommendations := getResponseSafetyRecommendations response_risks }

/-! ## Router agent (app/agents/router_agent.py) -/

/-- Model of a Python float as it can reach the router's confidence
clamp: a finite value (modelled as a rational), `nan`, or an infinity.
`json.loads` decodes the literals `NaN`, `Infinity` and `-Infinity` by
default, and `float()` is the identity on decoded numbers (numeric
strings, including "nan"/"inf", map to their values). -/
inductive PyFloat where
  | num : ℚ → PyFloat
  | nan : PyFloat
  | inf : PyFloat
  | ninf : PyFloat
deriving DecidableEq, Repr

instance : OfScientific PyFloat where
  ofScientific m s e := .num (OfScientific.ofScientific m s e)

/-- Model of the IEEE `<` comparison that Python's binary `max`/`min`
builtins use: every comparison involving `nan` is false. -/
def pyLt : PyFloat → PyFloat → Bool
  | .nan, _ => false
  | _, .nan => false
  | .num a, .num b => decide (a < b)
  | .num _, .inf => true
  | .inf, .num _ => false
  | .inf, .inf => false
  | .ninf, .num _ => true
  | .num _, .ninf => false
  | .ninf, .ninf => false
  | .ninf, .inf => true
  | .inf, .ninf => false

/-- Model of CPython `max(a, b)`: `b` if `b > a` else `a` — hence
`max(nan, x) = nan` while `max(x, nan) = x`. -/
def pyMax (a b : PyFloat) : PyFloat := if pyLt a b then b else a

/-- Model of CPython `min(a, b)`: `b` if `b < a` else `a` — hence
`min(nan, x) = nan` while `min(x, nan) = x`. -/
def pyMin (a b : PyFloat) : PyFloat := if pyLt b a then b else a

/-- The float is a finite number inside the unit interval. -/
def PyFloat.isUnit : PyFloat → Prop
  | .num q => 0 ≤ q ∧ q ≤ 1
  | _ => False

/-- Model of the JSON object decoded by `json.loads` inside
`_parse_routing_response`, restricted to the keys the parser reads.
`confidence` is a float or absent; a decoded value that `float()`
rejects raises `ValueError`, which the parser's `except` clause answers
exactly like a decode failure, so that case is folded into the decode
oracle returning `none`. -/
structure RoutingJson where
  recommended_task : Option String
  confidence : Option PyFloat
  reasoning : Option String
  persona_insights : Option (List String)
  suggested_agents : Option (List String)
deriving DecidableEq, Repr

structure ParsedRouting where
  recommended_task : String
  confidence : PyFloat
  reasoning : String
  persona_insights : List String
  suggested_agents : List String
deriving DecidableEq, Repr

/-- The validate-and-clean step of `_parse_routing_response` on a
successfully decoded object.  The clamp is the source's
`min(max(float(parsed.get("confidence", 0.5)), 0.0), 1.0)`, with
Python's binary `max`/`min` argument semantics — so a `nan` confidence
passes through both. -/
def cleanRouting (parsed : RoutingJson) : ParsedRouting :=
  { recommended_task := parsed.recommended_task.getD "AWARENESS"
    confidence := pyMin (pyMax (parsed.confidence.getD 0.5) (.num 0)) (.num 1)
    reasoning := parsed.reasoning.getD "Análise automática baseada no perfil"
    persona_insights := parsed.persona_insights.getD []
    suggested_agents := parsed.suggested_agents.getD ["career_agent"] }

/-- The default routing returned by the `except` clause of
`_parse_routing_response`. -/
def defaultRouting : ParsedRouting :=
  { recommended_task := "AWARENESS"
    confidence := 0.5
    reasoning := "Fallback routing due to parsing error"
    persona_insights := ["Perfil requer análise manual"]
    suggested_agents := ["career_agent"] }

def firstIdxOf (cs : List Char) (c : Char) : Option Nat :=
  match cs with
  | [] => none
  | x :: rest =>
    if x == c then some 0
    else (firstIdxOf rest c).map (fun i => i + 1)

def lastIdxOf (cs : List Char) (c : Char) : Option Nat :=
  match cs with
  | [] => none
  | x :: rest =>
    match lastIdxOf rest c with
    | some i => some (i + 1)
    | none => if x == c then some 0 else none

/-- The substring extraction of `_parse_routing_response`:
`response_text[response_text.find(lbrace) : response_text.rfind(rbrace)+1]`,
guarded by `start_idx >= 0 and end_idx > start_idx`. -/
def extractJsonSubstr (response_text : String) : Option String :=
  let cs := response_text.data
  match firstIdxOf cs '\x7b', lastIdxOf cs '\x7d' with
  | some s, some e => if s ≤ e then some ⟨(cs.drop s).take (e + 1 - s)⟩ else none
  | _, _ => none

/-- Model of `RouterAgent._parse_routing_response`; `decodeJson` is the
`json.loads` oracle for the extracted substring. -/
def parseRoutingResponse (decodeJson : String → Option RoutingJson)
    (response_text : String) : ParsedRouting :=
  match extractJsonSubstr response_text with
  | some json_str =>
    match decodeJson json_str with
    | some parsed => cleanRouting parsed
    | none => defaultRouting
  | none => defaultRouting

/-- The dictionary returned by `RouterAgent.process` /
`RouterAgent._fallback_routing`. -/
structure RoutingOutput where
  agent : String
  recommended_task : String
  confidence : PyFloat
  reasoning : String
  persona_insights : List String
  suggested_agents : List String
  language : LanguageCode
  processing_time_ms : Nat
deriving DecidableEq, Repr

/-- The rule-table keyword lists of `_fallback_routing`, in source order. -/
def courseKeywords : List String := ["curso", "treinamento", "aprender", "estudar"]

def jobKeywords : List String := ["emprego", "trabalho", "vaga", "carreira"]

def skillKeywords : List String := ["habilidade", "skill", "competência", "experiência"]

def planKeywords : List String := ["plano", "caminho", "próximos passos", "como começar"]

/-- Model of `RouterAgent._fallback_routing`. -/
def fallbackRouting (request : AssistantRequest) (persona : Persona) : RoutingOutput :=
  let message_lower := pyLower request.message
  let ta :=
    if containsAny courseKeywords message_lower then
      ("LEARNING_GUIDANCE", ["learning_agent"])
    else if containsAny jobKeywords message_lower then
      ("CAREER_EXPLORATION", ["career_agent"])
    else if containsAny skillKeywords message_lower then
      ("SKILL_ASSESSMENT", ["career_agent", "learning_agent"])
    else if containsAny planKeywords message_lower then
      ("PATHWAY_PLANNING", ["guidance_agent"])
    else
      ("AWARENESS", ["career_agent"])
  { agent := "router_agent"
    recommended_task := ta.1
    confidence := 0.7
    reasoning := "Roteamento baseado em regras de palavras-chave"
    persona_insights := ["Nível de prontidão: " ++ persona.readiness_level]
    suggested_agents := ta.2
    language := request.language
    processing_time_ms := 50 }

/-- Model of `RouterAgent.process`: the generation call is an oracle yielding the
response text and its `duration_ms`; any exception out of it
(`Except.error`) is answered by `_fallback_routing`. -/
def routerProcess (decodeJson : String → Option RoutingJson)
    (request : AssistantRequest) (persona : Persona)
    (ai : Except Unit (String × Nat)) : RoutingOutput :=
  match ai with
  | .ok reply =>
    let ra := parseRoutingResponse decodeJson reply.1
    { agent := "router_agent"
      recommended_task := ra.recommended_task
      confidence := ra.confidence
      reasoning := ra.reasoning
      persona_insights := ra.persona_insights
      suggested_agents := ra.suggested_agents
      language := request.language
      processing_time_ms := reply.2 }
  | .error _ => fallbackRouting request persona

/-! ## Mistral provider (app/services/mistral_provider.py) -/

/-- Model of `settings.DEFAULT_TEMPERATURE` (app/core/config.py). -/
def defaultTemperature : ℚ := 0.7

/-- Model of `settings.MAX_TOKENS` (app/core/config.py). -/
def defaultMaxTokens : Int := 500

/-- Model of `settings.AWS_MISTRAL_MODEL` (app/core/config.py). -/
def awsMistralModel : String := "mistral.mistral-7b-instruct-v0:2"

/-- The dictionary returned by the provider's generation methods (the
wall-clock `timestamp` field is omitted). -/
structure GenResponse where
  text : String
  prompt_tokens : Nat
  completion_tokens : Nat
  total_tokens : Nat
  duration_ms : Nat
  model : String
  temperature : ℚ
  mock_mode : Bool
deriving DecidableEq, Repr

def mockResponseCareer : String :=
  "Com base no seu perfil, recomendo explorar oportunidades em energia solar, que está crescendo rapidamente no Brasil. Considere começar com um curso técnico em instalação de painéis solares e depois buscar certificações específicas. O setor oferece boas perspectivas de emprego, especialmente no Nordeste brasileiro."

def mockResponseLearning : String :=
  "Existem várias opções de treinamento disponíveis para você. Recomendo começar com cursos online gratuitos sobre sustentabilidade e depois partir para certificações mais específicas. O SENAI oferece cursos técnicos em energia renovável que são muito valorizados pelo mercado."

def mockResponsePathway : String :=
  "Aqui está um plano de carreira personalizado para você: 1) Complete um curso básico de sustentabilidade (1-2 meses), 2) Faça um estágio ou trabalho voluntário na área (3-6 meses), 3) Busque uma certificação técnica específica (6-12 meses), 4) Aplique para vagas júnior em empresas do setor. Essa progressão está alinhada com seu perfil e orçamento."

def mockResponseAwareness : String :=
  "O Brasil oferece muitas oportunidades em empregos verdes! Setores como energia renovável, gestão de resíduos e agricultura sustentável estão em expansão. Mesmo sem experiência prévia, existem programas de capacitação que podem te preparar para essas carreiras promissoras."

/-- Model of `MistralProvider._generate_mock_response` (the `asyncio.sleep`
delay is timing, not data). -/
def generateMockResponse (prompt system_prompt : String)
    (temperature : ℚ) (max_tokens : Int) : GenResponse :=
  let _ := system_prompt
  let _ := max_tokens
  let prompt_lower := pyLower prompt
  let base :=
    if containsAny ["carreira", "emprego", "trabalho", "career", "job"] prompt_lower then
      mockResponseCareer
    else if containsAny ["curso", "treinamento", "aprender", "learning", "training"] prompt_lower then
      mockResponseLearning
    else if containsAny ["caminho", "plano", "próximos passos", "pathway", "plan"] prompt_lower then
      mockResponsePathway
    else
      mockResponseAwareness
  let response_text :=
    if temperature > 0.7 then
      base ++ " Lembre-se de que cada jornada é única, e você pode adaptar essas sugestões às suas necessidades específicas."
    else base
  { text := response_text
    prompt_tokens := pyWordCount prompt
    completion_tokens := pyWordCount response_text
    total_tokens := pyWordCount prompt + pyWordCount response_text
    duration_ms := 100
    model := "mock-mistral-7b"
    temperature := temperature
    mock_mode := true }

/-- The outcome of the AWS Bedrock `invoke_model` round trip:
the generated text and the measured duration. -/
structure UpstreamReply where
  text : String
  duration_ms : Nat
deriving DecidableEq, Repr

/-- Model of `MistralProvider._generate_real_response`: the transport call is an
oracle; on any exception (`Except.error`) the `except` clause falls
back to `_generate_mock_response`. -/
def generateRealResponse (upstream : Except Unit UpstreamReply)
    (prompt system_prompt : String) (temperature : ℚ) (max_tokens : Int) : GenResponse :=
  match upstream with
  | .ok reply =>
    { text := reply.text
      prompt_tokens := pyWordCount prompt
      completion_tokens := pyWordCount reply.text
      total_tokens := pyWordCount prompt + pyWordCount reply.text
      duration_ms := reply.duration_ms
      model := awsMistralModel
      temperature := temperature
      mock_mode := false }
  | .error _ => generateMockResponse prompt system_prompt temperature max_tokens

/-- The full generation-call signature.  `_generate_cache_key` md5-hashes
the string `prompt ++ ":" ++ system_prompt ++ ":" ++ json.dumps(kwargs,
sort_keys=True)`; identical signatures give identical hashes, which is
the only property of the key the code relies on, so the key is modelled
by the signature itself. -/
structure CacheSig where
  prompt : String
  system_prompt : String
  temperature : ℚ
  max_tokens : Int
deriving DecidableEq, Repr

def cacheLookup (cache : List (CacheSig × GenResponse)) (k : CacheSig) :
    Option GenResponse :=
  match cache with
  | [] => none
  | e :: rest => if e.1 = k then some e.2 else cacheLookup rest k

/-- The provider's mutable state: the configured mode and the `TTLCache`
contents.  TTL expiry and capacity eviction are events between calls;
the cache-idempotence claims assume no such event intervenes, so the
state carries the live entries only. -/
structure ProviderState where
  mock_mode : Bool
  cache : List (CacheSig × GenResponse)
deriving DecidableEq, Repr

/-- Model of `MistralProvider._generate_cache_key` (see `CacheSig` for the
md5-to-signature modelling). -/
def generateCacheKey (prompt system_prompt : String)
    (temperature : ℚ) (max_tokens : Int) : CacheSig :=
  { prompt := prompt, system_prompt := system_prompt
    temperature := temperature, max_tokens := max_tokens }

/-- Model of `temperature or settings.DEFAULT_TEMPERATURE` (Python truthiness:
both `None` and `0.0` select the default). -/
def orDefaultTemperature (temperature? : Option ℚ) : ℚ :=
  match temperature? with
  | none => defaultTemperature
  | some t => if t = 0 then defaultTemperature else t

/-- Model of `max_tokens or settings.MAX_TOKENS` (Python truthiness). -/
def orDefaultMaxTokens (max_tokens? : Option Int) : Int :=
  match max_tokens? with
  | none => defaultMaxTokens
  | some m => if m = 0 then defaultMaxTokens else m

/-- The body of `MistralProvider.generate_text` after the parameter
defaulting.  Returns the response, the updated state, and whether the
underlying generation computation (mock or real) was invoked. -/
def generateTextWith (st : ProviderState) (upstream : Except Unit UpstreamReply)
    (prompt system_prompt : String)
    (temperature : ℚ) (max_tokens : Int) :
    GenResponse × ProviderState × Bool :=
  let key := generateCacheKey prompt system_prompt temperature max_tokens
  match cacheLookup st.cache key with
  | some cached => (cached, st, false)
  | none =>
    let response :=
      if st.mock_mode then generateMockResponse prompt system_prompt temperature max_tokens
      else generateRealResponse upstream prompt system_prompt temperature max_tokens
    (response, { st with cache := (key, response) :: st.cache }, true)

/-- Model of `MistralProvider.generate_text`. -/
def generateText (st : ProviderState) (upstream : Except Unit UpstreamReply)
    (prompt system_prompt : String)
    (temperature? : Option ℚ) (max_tokens? : Option Int) :
    GenResponse × ProviderState × Bool :=
  generateTextWith st upstream prompt system_prompt
    (orDefaultTemperature temperature?) (orDefaultMaxTokens max_tokens?)

/-! ## Orchestrator (app/api/v1/assistant.py) -/

/-- Model of `AGENT_REGISTRY` (app/agents/__init__.py): `get_agent` raises
`ValueError` for any name outside this list. -/
def agentRegistry : List String :=
  ["router_agent", "career_agent", "learning_agent", "guidance_agent", "safety_agent"]

/-- Model of `AssistantResponse` (the fields `process_request` fills;
`recommendations` is always passed the empty list). -/
structure AssistantResponse where
  response : String
  recommendations : List (String × String)
  next_steps : List String
  persona_id : String
  agent_used : String
  language : LanguageCode
  confidence_score : PyFloat
  reasoning : String
deriving DecidableEq, Repr

/-- Model of `_generate_next_steps`. -/
def generateNextSteps (persona : Persona) (routing : RoutingOutput) : List String :=
  let task_type := routing.recommended_task
  let next_steps :=
    if task_type == "AWARENESS" then
      ["Explore setores verdes em crescimento no Brasil",
       "Identifique suas áreas de interesse específicas",
       "Pesquise oportunidades em sua região"]
    else if task_type == "CAREER_EXPLORATION" then
      ["Analise vagas específicas em empresas verdes locais",
       "Conecte-se com profissionais da área no LinkedIn",
       "Participe de eventos e webinars do setor"]
    else if task_type == "SKILL_ASSESSMENT" then
      ["Faça uma autoavaliação de habilidades técnicas",
       "Identifique lacunas de conhecimento prioritárias",
       "Busque feedback de profissionais experientes"]
    else if task_type == "LEARNING_GUIDANCE" then
      ["Pesquise cursos gratuitos online sobre sustentabilidade",
       "Considere certificações reconhecidas pelo mercado",
       "Explore programas de capacitação do SENAI"]
    else if task_type == "PATHWAY_PLANNING" then
      ["Defina metas de curto e longo prazo",
       "Crie um cronograma de desenvolvimento",
       "Identifique marcos de progresso mensuráveis"]
    else []
  next_steps ++
    (if persona.budget_constraint == 0 then
      ["Procure oportunidades gratuitas de desenvolvimento"] else []) ++
    (if persona.tech_comfort_level < 3 then
      ["Desenvolva habilidades digitais básicas"] else [])

instance {α β : Type} [DecidableEq α] [DecidableEq β] : DecidableEq (Except α β) := fun a b =>
  match a, b with
  | .error x, .error y =>
    if h : x = y then .isTrue (by rw [h]) else .isFalse (by intro hc; cases hc; exact h rfl)
  | .ok x, .ok y =>
    if h : x = y then .isTrue (by rw [h]) else .isFalse (by intro hc; cases hc; exact h rfl)
  | .error _, .ok _ => .isFalse (by intro hc; cases hc)
  | .ok _, .error _ => .isFalse (by intro hc; cases hc)

/-- What one call of `process_request` produces: the HTTP outcome (the
`except` clause turns any raised exception into the generic 500 detail
string), the request object after the pipeline ran (the source mutates
`request.task_type` in place at step 2), and the agents whose `process`
coroutine was invoked, in order. -/
structure ProcessOutcome where
  result : Except String AssistantResponse
  finalRequest : AssistantRequest
  invoked : List String
deriving DecidableEq, Repr

/-- Model of `process_request` (the orchestration endpoint), for a resolved
persona.  `routerAI` and `handlerResult` are the collaborator oracles:
the router's generation call, and the primary agent's `process` result
(`.ok none` models an agent dictionary lacking the `career_guidance`
key, `.error` an agent that raised).  The source performs no safety
check: after persona resolution it goes straight to
`RouterAgent.process`, then mutates `request.task_type` to
`AssistantTaskType(recommended_task)` — which raises `ValueError` when
the routed string is not one of the lower-case enum values — and then
dispatches to the first suggested agent.  Telemetry logging and the
persona interaction-counter update touch collaborators only, never the
request. -/
def processRequest (decodeJson : String → Option RoutingJson)
    (req : AssistantRequest) (persona : Persona)
    (routerAI : Except Unit (String × Nat))
    (handlerResult : Except Unit (Option String)) : ProcessOutcome :=
  let routing := routerProcess decodeJson req persona routerAI
  let primary := routing.suggested_agents.head?.getD "career_agent"
  if agentRegistry.contains primary = false then
    { result := .error "Failed to process assistant request"
      finalRequest := req
      invoked := ["router_agent"] }
  else
    match AssistantTaskType.fromString routing.recommended_task with
    | none =>
      { result := .error "Failed to process assistant request"
        finalRequest := req
        invoked := ["router_agent"] }
    | some t =>
      let reqMut := { req with task_type := t }
      match handlerResult with
      | .error _ =>
        { result := .error "Failed to process assistant request"
          finalRequest := reqMut
          invoked := ["router_agent", primary] }
      | .ok guidance =>
        { result := .ok
            { response := guidance.getD "Guidance processed successfully"
              recommendations := []
              next_steps := generateNextSteps persona routing
              persona_id := persona.id
              agent_used := primary
              language := req.language
              confidence_score := routing.confidence
              reasoning := routing.reasoning }
          finalRequest := reqMut
          invoked := ["router_agent", primary] }

/-! ## Shared helper lemmas and sample inputs -/

set_option maxHeartbeats 800000 in
/-- The score update of the `PONTUAÇÃO:` branch clamps into `[0,1]`, and
every other branch leaves the score untouched. -/
lemma parseSafetyLine_score_bounds (r : SafetyResult) (line : String)
    (h0 : 0 ≤ r.safety_score) (h1 : r.safety_score ≤ 1) :
    0 ≤ (parseSafetyLine r line).safety_score ∧ (parseSafetyLine r line).safety_score ≤ 1 := by
  delta parseSafetyLine
  dsimp only
  repeat' split
  all_goals try exact ⟨h0, h1⟩
  all_goals exact ⟨le_max_left _ _, max_le (by norm_num) (min_le_left _ _)⟩

lemma foldl_parseSafetyLine_bounds (lines : List String) (r : SafetyResult)
    (h0 : 0 ≤ r.safety_score) (h1 : r.safety_score ≤ 1) :
    0 ≤ (lines.foldl parseSafetyLine r).safety_score ∧
      (lines.foldl parseSafetyLine r).safety_score ≤ 1 := by
  induction lines generalizing r with
  | nil => exact ⟨h0, h1⟩
  | cons l ls ih =>
    have h := parseSafetyLine_score_bounds r l h0 h1
    rw [List.foldl_cons]
    exact ih (parseSafetyLine r l) h.1 h.2

lemma parseSafetyResponse_score_bounds (text : String) :
    0 ≤ (parseSafetyResponse text).safety_score ∧
      (parseSafetyResponse text).safety_score ≤ 1 := by
  unfold parseSafetyResponse
  have h := foldl_parseSafetyLine_bounds ((text.trim.splitOn "\n").map (fun l => l.trim))
    { is_safe := true
      safety_score := 0.8
      risk_categories := []
      action_required := "proceed"
      ai_justification := some text } (by norm_num) (by norm_num)
  dsimp only
  split <;> simpa using h

lemma comprehensiveSafetyCheck_score_bounds (stageB : Except Unit String) :
    0 ≤ (comprehensiveSafetyCheck stageB).safety_score ∧
      (comprehensiveSafetyCheck stageB).safety_score ≤ 1 := by
  cases stageB with
  | ok text => exact parseSafetyResponse_score_bounds text
  | error e =>
    constructor <;> norm_num [comprehensiveSafetyCheck]

/-- A fixed persona used by the concrete scenarios. -/
def samplePersona : Persona :=
  { id := "persona-1", readiness_level := "exploring",
    budget_constraint := 0, tech_comfort_level := 3 }

/-- A request whose message trips the `violence` quick pattern. -/
def riskyRequest : AssistantRequest :=
  { persona_id := none, task_type := .CAREER_EXPLORATION,
    message := "quero matar alguém", language := .PT_BR, context := [] }

/-- A benign request used by the routing counterexamples. -/
def benignRequest : AssistantRequest :=
  { persona_id := none, task_type := .CAREER_EXPLORATION,
    message := "fale sobre energia solar", language := .PT_BR, context := [] }

def exceptIsOk {α β : Type} : Except α β → Bool
  | .ok _ => true
  | .error _ => false

/-! ## Claims -/

/-- A generated response containing six positive-indicator terms and no
risk patterns. -/
def c2Response : String :=
  "sustentabilidade meio ambiente carreira educação curso trabalho"

set_option maxHeartbeats 1000000 in
/-- C2, counterexample.  The outbound response validation computes
`max(0.1, total_score/5 - 0.2*len(response_risks))` without an upper
clamp: a response containing six positive indicators and no risks gets
safety score `6/5 > 1`, outside `[0,1]`. -/
theorem c2_counterexample :
    (validateResponseSafety c2Response).response_safety_score = 6 / 5 ∧
      (1 : ℚ) < 6 / 5 := by
  have hpr : (wordSearch "garanto" (pyLower c2Response) || wordSearch "prometo" (pyLower c2Response) ||
      wordSearch "certeza" (pyLower c2Response) || wordSearch "100%" (pyLower c2Response) ||
      wordSearch "sem risco" (pyLower c2Response)) = false := by decide
  have hfi : ((wordSearch "investir" (pyLower c2Response) || wordSearch "investimento" (pyLower c2Response) ||
      wordSearch "ações" (pyLower c2Response) || wordSearch "bitcoin" (pyLower c2Response)) &&
      !containsSubstr "disclaimer" (pyLower c2Response) && !containsSubstr "risco" (pyLower c2Response)) = false := by
    decide
  have hts : (quickSafetyCheck c2Response).total_score = 6 := by decide
  constructor
  · unfold validateResponseSafety
    dsimp only
    rw [hpr, hfi, hts]
    norm_num
  · norm_num

/-- C2, amended: every inbound safety check (`SafetyAgent.process`,
through both the quick-fail verdict and the Stage-B comprehensive check
with its tolerant parse and its failure fallback) returns a safety
score in `[0,1]`; the outbound `validate_response_safety` score is only
bounded below by `0.1` and may exceed `1`. -/
theorem c2_amended :
    (∀ (message : String) (language : LanguageCode) (stageB : Except Unit String),
        0 ≤ (safetyProcess message language stageB).safety_result.safety_score ∧
          (safetyProcess message language stageB).safety_result.safety_score ≤ 1) ∧
      (∀ response_text : String,
        (0.1 : ℚ) ≤ (validateResponseSafety response_text).response_safety_score) := by
  constructor
  · intro message language stageB
    unfold safetyProcess
    cases h : (quickSafetyCheck message).is_safe with
    | true => simpa [h] using comprehensiveSafetyCheck_score_bounds stageB
    | false =>
      simp only [h, Bool.false_eq_true, if_false]
      norm_num
  · intro response_text
    unfold validateResponseSafety
    dsimp only
    exact le_max_left _ _

/-- The shape of `_quick_safety_check`'s risk list: each category name
appears iff its patterns matched, in the dictionary's fixed order. -/
def riskListOf (b1 b2 b3 b4 b5 : Bool) : List String :=
  (if b1 then ["violence"] else []) ++
  (if b2 then ["inappropriate_content"] else []) ++
  (if b3 then ["illegal_activities"] else []) ++
  (if b4 then ["financial_scams"] else []) ++
  (if b5 then ["personal_info"] else [])

lemma quick_risk_categories_shape (message : String) :
    (quickSafetyCheck message).risk_categories =
      riskListOf (categoryMatches (pyLower message) violencePatterns)
        (categoryMatches (pyLower message) inappropriatePatterns)
        (categoryMatches (pyLower message) illegalPatterns)
        (categoryMatches (pyLower message) scamPatterns)
        (categoryMatches (pyLower message) personalInfoPatterns) := by
  unfold quickSafetyCheck unsafePatterns riskListOf
  dsimp only
  simp only [List.filterMap_cons, List.filterMap_nil]
  cases categoryMatches (pyLower message) violencePatterns <;>
    cases categoryMatches (pyLower message) inappropriatePatterns <;>
    cases categoryMatches (pyLower message) illegalPatterns <;>
    cases categoryMatches (pyLower message) scamPatterns <;>
    cases categoryMatches (pyLower message) personalInfoPatterns <;>
    simp [List.filterMap]

/-- Because `_get_safety_message` checks the categories in the same
fixed order in which `_quick_safety_check` collects them, on any
quick-check risk list it answers with the message of the list's first
category. -/
lemma getSafetyMessage_head (b1 b2 b3 b4 b5 : Bool) (language : LanguageCode) (c : String)
    (h : (riskListOf b1 b2 b3 b4 b5).head? = some c) :
    getSafetyMessage (riskListOf b1 b2 b3 b4 b5) language = getSafetyMessage [c] language := by
  cases b1 <;> cases b2 <;> cases b3 <;> cases b4 <;> cases b5 <;>
    cases language <;> simp_all [riskListOf, getSafetyMessage]

/-- C3: whenever the quick pattern check flags at least one risk
category, `SafetyAgent.process` answers unsafe with score `0.2`, action
`block_request`, a message selected by the first flagged category, and
the result does not depend on the Stage-B oracle at all (the
comprehensive AI check is never invoked). -/
theorem c3_quick_block (message : String) (language : LanguageCode)
    (stageB1 stageB2 : Except Unit String)
    (h : (quickSafetyCheck message).is_safe = false) :
    (safetyProcess message language stageB1).safety_result.is_safe = false ∧
      (safetyProcess message language stageB1).safety_result.safety_score = 0.2 ∧
      (safetyProcess message language stageB1).safety_result.action_required = "block_request" ∧
      (safetyProcess message language stageB1).safety_result.risk_categories =
        (quickSafetyCheck message).risk_categories ∧
      (∀ c, (quickSafetyCheck message).risk_categories.head? = some c →
        (safetyProcess message language stageB1).safety_result.safety_message =
          some (getSafetyMessage [c] language)) ∧
      (safetyProcess message language stageB1).model_used = "safety_rules" ∧
      safetyProcess message language stageB1 = safetyProcess message language stageB2 := by
  have hval : ∀ sb : Except Unit String, safetyProcess message language sb =
      { agent := "safety_agent"
        safety_result :=
          { is_safe := false
            safety_score := 0.2
            risk_categories := (quickSafetyCheck message).risk_categories
            safety_message :=
              some (getSafetyMessage (quickSafetyCheck message).risk_categories language)
            action_required := "block_request" }
        user_message := message
        message_length := message.length
        processing_time_ms := 150
        model_used := "safety_rules" } := by
    intro sb
    unfold safetyProcess
    simp [h]
  refine ⟨?_, ?_, ?_, ?_, ?_, ?_, ?_⟩
  · rw [hval]
  · rw [hval]
  · rw [hval]
  · rw [hval]
  · intro c hc
    rw [hval]
    dsimp only
    rw [quick_risk_categories_shape] at hc ⊢
    rw [getSafetyMessage_head _ _ _ _ _ language c hc]
  · rw [hval]
  · rw [hval stageB1, hval stageB2]

/-- C3, witness: the message "como vender drogas" trips the
`illegal_activities` pattern and is blocked without consulting Stage B. -/
theorem c3_witness :
    (quickSafetyCheck "como vender drogas").is_safe = false ∧
      (safetyProcess "como vender drogas" .PT_BR (.ok "ignored")).safety_result.action_required
        = "block_request" ∧
      (safetyProcess "como vender drogas" .PT_BR (.ok "ignored")).safety_result.safety_message
        = some (getSafetyMessage ["illegal_activities"] .PT_BR) ∧
      (safetyProcess "como vender drogas" .PT_BR (.ok "ignored"))
        = (safetyProcess "como vender drogas" .PT_BR (.error ())) := by
  have h0 : (quickSafetyCheck "como vender drogas").is_safe = false := by decide
  have h := c3_quick_block "como vender drogas" .PT_BR (.ok "ignored") (.error ()) h0
  exact ⟨h0, h.2.2.1, h.2.2.2.2.1 "illegal_activities" (by decide), h.2.2.2.2.2.2⟩

/-- C7: when the quick check passes and the Stage-B generation call
fails (transport error or timeout), `SafetyAgent.process` returns the
conservative-permissive fallback verdict: safe, score `0.7`, action
`proceed_with_caution`.  The second conjunct records that the Stage-B
parse is a total function with clamped scores — an unparseable response
is absorbed by the tolerant line parser, and no `UpstreamError` or
`ParseError` ever escapes the safety pipeline (both `safetyProcess` and
`comprehensiveSafetyCheck` are total). -/
theorem c7_stageB_fallback (message : String) (language : LanguageCode)
    (h : (quickSafetyCheck message).is_safe = true) :
    (safetyProcess message language (.error ())).safety_result =
      { is_safe := true
        safety_score := 0.7
        risk_categories := []
        safety_message := some "Análise de segurança simplificada aplicada"
        action_required := "proceed_with_caution"
        fallback_used := true } ∧
      (∀ text, 0 ≤ (parseSafetyResponse text).safety_score ∧
        (parseSafetyResponse text).safety_score ≤ 1) := by
  constructor
  · unfold safetyProcess
    simp [h, comprehensiveSafetyCheck]
  · exact parseSafetyResponse_score_bounds

/-- C7, witness: a benign learning question with the Stage-B call
failing gets the conservative-permissive fallback verdict. -/
theorem c7_witness :
    (quickSafetyCheck "quero aprender sobre energia solar").is_safe = true ∧
      (safetyProcess "quero aprender sobre energia solar" .PT_BR (.error ())).safety_result.safety_score
        = 0.7 ∧
      (safetyProcess "quero aprender sobre energia solar" .PT_BR (.error ())).safety_result.action_required
        = "proceed_with_caution" := by
  have h0 : (quickSafetyCheck "quero aprender sobre energia solar").is_safe = true := by decide
  have h := c7_stageB_fallback "quero aprender sobre energia solar" .PT_BR h0
  refine ⟨h0, ?_, ?_⟩ <;> rw [h.1]

/-- C1: `process_request` performs no safety check.  The universal
conjunct shows the router is the first (and an unconditional) step of
every run; the concrete conjuncts evaluate the endpoint on a request
whose message trips the `violence` quick pattern: the safety agent is
never invoked, and instead of the safety message with
`action_required=block_request` the caller gets the generic 500 failure
(the routed `"AWARENESS"` string is not a lower-case enum value, so
`AssistantTaskType(recommended_task)` raises).  `AssistantResponse` has
no `action_required` field at all. -/
theorem c1_orchestrator_never_runs_safety :
    (∀ (decodeJson : String → Option RoutingJson) (req : AssistantRequest) (persona : Persona)
        (routerAI : Except Unit (String × Nat)) (handlerResult : Except Unit (Option String)),
      (processRequest decodeJson req persona routerAI handlerResult).invoked.head?
        = some "router_agent") ∧
      (quickSafetyCheck riskyRequest.message).is_safe = false ∧
      (quickSafetyCheck riskyRequest.message).risk_categories = ["violence"] ∧
      (processRequest (fun _ => none) riskyRequest samplePersona (.error ())
          (.ok (some "resposta gerada"))).invoked = ["router_agent"] ∧
      ("safety_agent" ∈ (processRequest (fun _ => none) riskyRequest samplePersona (.error ())
          (.ok (some "resposta gerada"))).invoked) = False ∧
      (processRequest (fun _ => none) riskyRequest samplePersona (.error ())
          (.ok (some "resposta gerada"))).result
        = .error "Failed to process assistant request" := by
  refine ⟨?_, by decide, by decide, by decide, ?_, by decide⟩
  · intro decodeJson req persona routerAI handlerResult
    unfold processRequest
    dsimp only
    repeat' split
    all_goals rfl
  · simp only [eq_iff_iff, iff_false]
    decide

/-- A decoded routing object whose `recommended_task` is the lower-case
enum value `"awareness"`, so the orchestrator's
`AssistantTaskType(recommended_task)` conversion succeeds and the run
completes. -/
def c6Json : RoutingJson :=
  { recommended_task := some "awareness", confidence := some 0.9, reasoning := none,
    persona_insights := none, suggested_agents := some ["career_agent"] }

/-- C6, counterexample.  A run that completes (HTTP 200) after the AI
routing path decoded `recommended_task = "awareness"`: step 2 of
`process_request` overwrites `request.task_type` in place, so the
request leaves the pipeline with a different `task_type` than it
entered with. -/
theorem c6_counterexample :
    benignRequest.task_type = .CAREER_EXPLORATION ∧
      exceptIsOk (processRequest (fun _ => some c6Json) benignRequest samplePersona
        (.ok ("\x7b\x7d", 5)) (.ok (some "texto do agente"))).result = true ∧
      (processRequest (fun _ => some c6Json) benignRequest samplePersona
        (.ok ("\x7b\x7d", 5)) (.ok (some "texto do agente"))).finalRequest.task_type
        = .AWARENESS ∧
      ¬ (processRequest (fun _ => some c6Json) benignRequest samplePersona
        (.ok ("\x7b\x7d", 5)) (.ok (some "texto do agente"))).finalRequest.task_type
        = benignRequest.task_type := by
  refine ⟨by decide, by decide, by decide, by decide⟩

/-- C6, amended: `process_request` never touches the request's
`message`, `language`, `context` or `persona_id`; the only mutation it
performs on the request is overwriting `task_type` with the routed task
category (when that string converts to a task type — otherwise the run
fails before the assignment and the request is unchanged). -/
theorem c6_amended (decodeJson : String → Option RoutingJson)
    (req : AssistantRequest) (persona : Persona)
    (routerAI : Except Unit (String × Nat)) (handlerResult : Except Unit (Option String)) :
    (processRequest decodeJson req persona routerAI handlerResult).finalRequest.message
      = req.message ∧
      (processRequest decodeJson req persona routerAI handlerResult).finalRequest.language
        = req.language ∧
      (processRequest decodeJson req persona routerAI handlerResult).finalRequest.context
        = req.context ∧
      (processRequest decodeJson req persona routerAI handlerResult).finalRequest.persona_id
        = req.persona_id := by
  unfold processRequest
  dsimp only
  repeat' split
  all_goals exact ⟨rfl, rfl, rfl, rfl⟩

/-- The spec's Scenario A request. -/
def scenarioARequest : AssistantRequest :=
  { persona_id := none, task_type := .AWARENESS,
    message := "quero fazer um curso de energia solar", language := .PT_BR, context := [] }

/-- The spec's Scenario C request. -/
def scenarioCRequest : AssistantRequest :=
  { persona_id := none, task_type := .AWARENESS,
    message := "quero emprego em energia solar", language := .PT_BR, context := [] }

/-- C8: when the AI routing path fails, `RouterAgent.process` answers
with `_fallback_routing`, which applies the keyword rule table to the
lower-cased message in the fixed priority order course/training →
LEARNING_GUIDANCE, job/work → CAREER_EXPLORATION, skill/competency →
SKILL_ASSESSMENT, plan/pathway → PATHWAY_PLANNING, otherwise AWARENESS,
always with confidence `0.7`; Scenario A yields LEARNING_GUIDANCE at
`0.7` and Scenario C yields CAREER_EXPLORATION. -/
theorem c8_fallback_rules :
    (∀ (decodeJson : String → Option RoutingJson) (req : AssistantRequest)
        (persona : Persona) (e : Unit),
      routerProcess decodeJson req persona (.error e) = fallbackRouting req persona) ∧
      (∀ req persona, (fallbackRouting req persona).confidence = 0.7) ∧
      (∀ req persona, containsAny courseKeywords (pyLower req.message) = true →
        (fallbackRouting req persona).recommended_task = "LEARNING_GUIDANCE") ∧
      (∀ req persona, containsAny courseKeywords (pyLower req.message) = false →
        containsAny jobKeywords (pyLower req.message) = true →
        (fallbackRouting req persona).recommended_task = "CAREER_EXPLORATION") ∧
      (∀ req persona, containsAny courseKeywords (pyLower req.message) = false →
        containsAny jobKeywords (pyLower req.message) = false →
        containsAny skillKeywords (pyLower req.message) = true →
        (fallbackRouting req persona).recommended_task = "SKILL_ASSESSMENT") ∧
      (∀ req persona, containsAny courseKeywords (pyLower req.message) = false →
        containsAny jobKeywords (pyLower req.message) = false →
        containsAny skillKeywords (pyLower req.message) = false →
        containsAny planKeywords (pyLower req.message) = true →
        (fallbackRouting req persona).recommended_task = "PATHWAY_PLANNING") ∧
      (∀ req persona, containsAny courseKeywords (pyLower req.message) = false →
        containsAny jobKeywords (pyLower req.message) = false →
        containsAny skillKeywords (pyLower req.message) = false →
        containsAny planKeywords (pyLower req.message) = false →
        (fallbackRouting req persona).recommended_task = "AWARENESS") ∧
      (fallbackRouting scenarioARequest samplePersona).recommended_task
        = "LEARNING_GUIDANCE" ∧
      (fallbackRouting scenarioARequest samplePersona).confidence = 0.7 ∧
      (fallbackRouting scenarioCRequest samplePersona).recommended_task
        = "CAREER_EXPLORATION" := by
  refine ⟨fun d req p e => rfl, fun req p => rfl, ?_, ?_, ?_, ?_, ?_, by decide, rfl,
    by decide⟩
  · intro req p h1
    simp [fallbackRouting, h1]
  · intro req p h1 h2
    simp [fallbackRouting, h1, h2]
  · intro req p h1 h2 h3
    simp [fallbackRouting, h1, h2, h3]
  · intro req p h1 h2 h3 h4
    simp [fallbackRouting, h1, h2, h3, h4]
  · intro req p h1 h2 h3 h4
    simp [fallbackRouting, h1, h2, h3, h4]

/-- C8, witness: the rule-priority conjunct applied to Scenario C. -/
theorem c8_fallback_rules_witness :
    (fallbackRouting scenarioCRequest samplePersona).recommended_task
      = "CAREER_EXPLORATION" :=
  c8_fallback_rules.2.2.2.1 scenarioCRequest samplePersona (by decide) (by decide)

/-- The source's clamp expression `min(max(x, 0.0), 1.0)` over Python's
binary `max`/`min`: it lands in the unit interval for every float
except `nan`, which passes through both comparisons. -/
lemma pyClamp_cases (x : PyFloat) :
    (pyMin (pyMax x (.num 0)) (.num 1)).isUnit ∨
      (x = .nan ∧ pyMin (pyMax x (.num 0)) (.num 1) = .nan) := by
  cases x with
  | num q =>
    left
    by_cases h0 : q < 0
    · have e1 : pyMax (.num q) (.num 0) = .num 0 := by simp [pyMax, pyLt, h0]
      have hc : pyLt (.num (1 : ℚ)) (.num (0 : ℚ)) = false := by decide
      have e2 : pyMin (.num (0 : ℚ)) (.num 1) = .num 0 := by simp [pyMin, hc]
      rw [e1, e2]
      exact ⟨le_refl 0, zero_le_one⟩
    · have e1 : pyMax (.num q) (.num 0) = .num q := by simp [pyMax, pyLt, h0]
      by_cases h1 : (1 : ℚ) < q
      · have e2 : pyMin (.num q) (.num 1) = .num 1 := by simp [pyMin, pyLt, h1]
        rw [e1, e2]
        exact ⟨zero_le_one, le_refl 1⟩
      · have e2 : pyMin (.num q) (.num 1) = .num q := by simp [pyMin, pyLt, h1]
        rw [e1, e2]
        exact ⟨le_of_not_lt h0, le_of_not_lt h1⟩
  | nan => exact Or.inr ⟨rfl, rfl⟩
  | inf =>
    left
    show PyFloat.isUnit (.num 1)
    exact ⟨zero_le_one, le_refl 1⟩
  | ninf =>
    left
    show PyFloat.isUnit (.num 0)
    exact ⟨le_refl 0, zero_le_one⟩

lemma cleanRouting_confidence_isUnit (j : RoutingJson)
    (h : ¬ j.confidence = some .nan) : (cleanRouting j).confidence.isUnit := by
  rcases pyClamp_cases (j.confidence.getD 0.5) with hu | ⟨hn, _⟩
  · exact hu
  · exfalso
    apply h
    cases hj : j.confidence with
    | none =>
      rw [hj] at hn
      simp only [Option.getD_none] at hn
      exact absurd hn (by decide)
    | some x =>
      rw [hj] at hn
      simp only [Option.getD_some] at hn
      rw [hn]

lemma cleanRouting_confidence_nan (j : RoutingJson)
    (h : j.confidence = some .nan) : (cleanRouting j).confidence = .nan := by
  have e : (cleanRouting j).confidence
      = pyMin (pyMax (j.confidence.getD 0.5) (.num 0)) (.num 1) := rfl
  rw [e, h]
  rfl

/-- The clamp at the absent-key default `0.5`. -/
lemma pyClamp_half :
    pyMin (pyMax ((0.5 : PyFloat)) (.num 0)) (.num 1) = (0.5 : PyFloat) := by
  show pyMin (pyMax (.num (0.5 : ℚ)) (.num 0)) (.num 1) = .num (0.5 : ℚ)
  have h1 : pyLt (.num (0.5 : ℚ)) (.num 0) = false := by
    show decide ((0.5 : ℚ) < 0) = false
    exact decide_eq_false (by norm_num)
  have h2 : pyLt (.num (1 : ℚ)) (.num (0.5 : ℚ)) = false := by
    show decide ((1 : ℚ) < 0.5) = false
    exact decide_eq_false (by norm_num)
  simp [pyMax, pyMin, h1, h2]

lemma parseRoutingResponse_confidence_cases (decodeJson : String → Option RoutingJson)
    (text : String) :
    (parseRoutingResponse decodeJson text).confidence.isUnit ∨
      (parseRoutingResponse decodeJson text).confidence = .nan := by
  unfold parseRoutingResponse
  cases h1 : extractJsonSubstr text with
  | none =>
    dsimp only
    left
    show PyFloat.isUnit (0.5 : PyFloat)
    exact ⟨by norm_num, by norm_num⟩
  | some js =>
    dsimp only
    cases h2 : decodeJson js with
    | none =>
      dsimp only
      left
      show PyFloat.isUnit (0.5 : PyFloat)
      exact ⟨by norm_num, by norm_num⟩
    | some j =>
      dsimp only
      rcases pyClamp_cases (j.confidence.getD 0.5) with hu | ⟨_, hc⟩
      · exact Or.inl hu
      · exact Or.inr hc

/-- The five task categories offered by the routing prompt (the names
of the `AssistantTaskType` enum members). -/
def validTaskCategories : List String :=
  ["AWARENESS", "CAREER_EXPLORATION", "SKILL_ASSESSMENT", "LEARNING_GUIDANCE",
   "PATHWAY_PLANNING"]

/-- A decoded routing object carrying a `recommended_task` outside the
five categories and an out-of-range (finite) confidence. -/
def c9Json : RoutingJson :=
  { recommended_task := some "FOO", confidence := some (.num 2), reasoning := none,
    persona_insights := none, suggested_agents := some ["career_agent"] }

/-- A decoded routing object whose confidence is the JSON literal `NaN`
(accepted by `json.loads` by default). -/
def nanConfidenceJson : RoutingJson :=
  { recommended_task := some "AWARENESS", confidence := some .nan, reasoning := none,
    persona_insights := none, suggested_agents := some ["career_agent"] }

/-- C9, counterexample.  `parsed.get("recommended_task", "AWARENESS")`
defaults only when the key is absent: the unrecognized value `"FOO"` is
passed through verbatim instead of being replaced by AWARENESS.  A
finite out-of-range confidence is clamped to 1, but a decoded `NaN`
confidence survives `min(max(float(x), 0.0), 1.0)` unclamped, so the
claimed clamp to `[0,1]` also fails. -/
theorem c9_counterexample :
    (parseRoutingResponse (fun _ => some c9Json) "\x7b\x7d").recommended_task = "FOO" ∧
      ¬ "FOO" ∈ validTaskCategories ∧
      ¬ (parseRoutingResponse (fun _ => some c9Json) "\x7b\x7d").recommended_task
        = "AWARENESS" ∧
      (parseRoutingResponse (fun _ => some c9Json) "\x7b\x7d").confidence = .num 1 ∧
      (parseRoutingResponse (fun _ => some nanConfidenceJson) "\x7b\x7d").confidence
        = .nan := by
  refine ⟨by decide, by decide, by decide, by decide, by decide⟩

/-- A decoded routing object with every optional key absent. -/
def emptyRoutingJson : RoutingJson :=
  { recommended_task := none, confidence := none, reasoning := none,
    persona_insights := none, suggested_agents := none }

/-- C9, amended: on a successfully decoded JSON substring the parser
applies the validate-and-clean step: any confidence other than a
decoded `NaN` is clamped into `[0,1]` (default `0.5` when absent), but
a `NaN` confidence passes through the clamp as `NaN`;
`suggested_agents` defaults to `["career_agent"]` when absent; and
`recommended_task` defaults to AWARENESS only when the key is absent —
an unrecognized present value is passed through unchanged. -/
theorem c9_amended (decodeJson : String → Option RoutingJson) (text json_str : String)
    (j : RoutingJson) (h1 : extractJsonSubstr text = some json_str)
    (h2 : decodeJson json_str = some j) :
    parseRoutingResponse decodeJson text = cleanRouting j ∧
      (¬ j.confidence = some .nan → (cleanRouting j).confidence.isUnit) ∧
      (j.confidence = some .nan → (cleanRouting j).confidence = .nan) ∧
      (cleanRouting j).recommended_task = j.recommended_task.getD "AWARENESS" ∧
      (j.suggested_agents = none → (cleanRouting j).suggested_agents = ["career_agent"]) ∧
      (j.confidence = none → (cleanRouting j).confidence = 0.5) := by
  refine ⟨?_, cleanRouting_confidence_isUnit j, cleanRouting_confidence_nan j, rfl, ?_, ?_⟩
  · unfold parseRoutingResponse
    simp only [h1, h2]
  · intro h
    simp [cleanRouting, h]
  · intro h
    have e : (cleanRouting j).confidence
        = pyMin (pyMax ((0.5 : PyFloat)) (.num 0)) (.num 1) := by
      simp [cleanRouting, h]
    rw [e, pyClamp_half]

/-- C9, witness: the amended theorem applied to an object with all keys
absent. -/
theorem c9_amended_witness :
    parseRoutingResponse (fun _ => some emptyRoutingJson) "\x7b\x7d"
      = cleanRouting emptyRoutingJson ∧
      (cleanRouting emptyRoutingJson).confidence.isUnit ∧
      (cleanRouting emptyRoutingJson).suggested_agents = ["career_agent"] ∧
      (cleanRouting emptyRoutingJson).confidence = 0.5 := by
  have h := c9_amended (fun _ => some emptyRoutingJson) "\x7b\x7d" "\x7b\x7d"
    emptyRoutingJson (by decide) rfl
  exact ⟨h.1, h.2.1 (by decide), h.2.2.2.2.1 rfl, h.2.2.2.2.2 rfl⟩

/-- A decoded routing object whose `suggested_agents` key is present
but holds the empty list. -/
def c5EmptyAgentsJson : RoutingJson :=
  { recommended_task := some "AWARENESS", confidence := some (.num 1), reasoning := none,
    persona_insights := none, suggested_agents := some [] }

/-- C5, counterexample.  Two violations of the claimed invariants on
the AI path: `parsed.get("suggested_agents", ["career_agent"])`
substitutes the default only when the key is absent, so a decoded empty
list yields a routing decision with empty `suggested_agents`; and a
decoded `NaN` confidence survives the clamp, yielding a confidence
outside `[0,1]`. -/
theorem c5_counterexample :
    (routerProcess (fun _ => some c5EmptyAgentsJson) benignRequest samplePersona
        (.ok ("\x7b\x7d", 9))).suggested_agents = [] ∧
      (routerProcess (fun _ => some nanConfidenceJson) benignRequest samplePersona
        (.ok ("\x7b\x7d", 9))).confidence = .nan := by
  refine ⟨by decide, by decide⟩

/-- C5, amended: the routing confidence lies in `[0,1]` on the
parse-failure and rule-fallback paths, and on the AI path whenever the
decoded confidence is not `NaN` — a decoded `NaN` passes through the
clamp as `NaN`.  `suggested_agents` is non-empty on the parse-failure
and rule-fallback paths and is defaulted to `["career_agent"]` when
the decoded key is absent — but an explicitly present empty list
passes through (see the counterexample). -/
theorem c5_invariants :
    (∀ (decodeJson : String → Option RoutingJson) (req : AssistantRequest)
        (persona : Persona) (ai : Except Unit (String × Nat)),
      (routerProcess decodeJson req persona ai).confidence.isUnit ∨
        (routerProcess decodeJson req persona ai).confidence = .nan) ∧
      (∀ (decodeJson : String → Option RoutingJson) (req : AssistantRequest)
        (persona : Persona) (e : Unit),
        (routerProcess decodeJson req persona (.error e)).confidence = 0.7) ∧
      (∀ j : RoutingJson, ¬ j.confidence = some .nan →
        (cleanRouting j).confidence.isUnit) ∧
      (∀ j : RoutingJson, j.confidence = some .nan →
        (cleanRouting j).confidence = .nan) ∧
      (∀ req persona, ¬ (fallbackRouting req persona).suggested_agents = []) ∧
      defaultRouting.suggested_agents = ["career_agent"] ∧
      (∀ j : RoutingJson, j.suggested_agents = none →
        (cleanRouting j).suggested_agents = ["career_agent"]) := by
  refine ⟨?_, fun d req p e => rfl, cleanRouting_confidence_isUnit,
    cleanRouting_confidence_nan, ?_, rfl, ?_⟩
  · intro d req p ai
    cases ai with
    | ok reply => exact parseRoutingResponse_confidence_cases d reply.1
    | error e =>
      left
      have h : (routerProcess d req p (.error e)).confidence = .num 0.7 := rfl
      rw [h]
      exact ⟨by norm_num, by norm_num⟩
  · intro req p
    unfold fallbackRouting
    dsimp only
    repeat' split
    all_goals simp
  · intro j h
    simp [cleanRouting, h]

/-- C5, witness: the amended invariants at concrete inputs. -/
theorem c5_invariants_witness :
    (cleanRouting emptyRoutingJson).confidence.isUnit ∧
      (cleanRouting nanConfidenceJson).confidence = .nan ∧
      (routerProcess (fun _ => none) benignRequest samplePersona (.error ())).confidence
        = 0.7 ∧
      ¬ (fallbackRouting benignRequest samplePersona).suggested_agents = [] ∧
      (cleanRouting emptyRoutingJson).suggested_agents = ["career_agent"] := by
  have h := c5_invariants
  exact ⟨h.2.2.1 emptyRoutingJson (by decide), h.2.2.2.1 nanConfidenceJson (by decide),
    h.2.1 (fun _ => none) benignRequest samplePersona (),
    h.2.2.2.2.1 benignRequest samplePersona, h.2.2.2.2.2.2 emptyRoutingJson rfl⟩

/-- C4, counterexample.  When the upstream Bedrock call fails, the
`except` clause of `_generate_real_response` does not surface any error
to the caller: it silently answers the deterministic mock response — a
well-formed generation result with fabricated content — while the
provider is configured for the real path (not an explicitly configured
mock mode).  The `mock_mode=True` flag is set on that response. -/
theorem c4_counterexample :
    generateRealResponse (.error ()) "como conseguir emprego verde" "sys" 0.3 300
      = generateMockResponse "como conseguir emprego verde" "sys" 0.3 300 ∧
      (generateRealResponse (.error ()) "como conseguir emprego verde" "sys" 0.3 300).mock_mode
        = true ∧
      (generateRealResponse (.error ()) "como conseguir emprego verde" "sys" 0.3 300).text
        = mockResponseCareer ∧
      (generateTextWith { mock_mode := false, cache := [] } (.error ())
        "como conseguir emprego verde" "sys" 0.3 300).1.mock_mode = true := by
  have hkw : containsAny ["carreira", "emprego", "trabalho", "career", "job"]
      (pyLower "como conseguir emprego verde") = true := by decide
  have hmock : generateMockResponse "como conseguir emprego verde" "sys" 0.3 300
      = { text := mockResponseCareer
          prompt_tokens := pyWordCount "como conseguir emprego verde"
          completion_tokens := pyWordCount mockResponseCareer
          total_tokens := pyWordCount "como conseguir emprego verde" + pyWordCount mockResponseCareer
          duration_ms := 100
          model := "mock-mistral-7b"
          temperature := 0.3
          mock_mode := true } := by
    unfold generateMockResponse
    simp only [hkw, if_true]
    have ht : ((0.3 : ℚ) > 0.7) = False := by
      simp only [eq_iff_iff, iff_false, not_lt]
      norm_num
    simp [ht]
  refine ⟨rfl, rfl, ?_, ?_⟩
  · show (generateMockResponse "como conseguir emprego verde" "sys" 0.3 300).text
      = mockResponseCareer
    rw [hmock]
  · have hlookup : cacheLookup ([] : List (CacheSig × GenResponse))
        (generateCacheKey "como conseguir emprego verde" "sys" 0.3 300) = none := rfl
    unfold generateTextWith
    simp only [hlookup]
    rfl

/-- C4, amended: on upstream transport/API failure the generation
client does not fail and does not surface an error: it falls back to
the deterministic mock response.  Every mock/fallback response carries
`mock_mode=true`, and every successful real response carries
`mock_mode=false` with the upstream text — so fabricated content is
always flagged, but the claimed `UpstreamError` is never raised. -/
theorem c4_flagging :
    (∀ (prompt system_prompt : String) (temperature : ℚ) (max_tokens : Int) (e : Unit),
      generateRealResponse (.error e) prompt system_prompt temperature max_tokens
        = generateMockResponse prompt system_prompt temperature max_tokens) ∧
      (∀ (prompt system_prompt : String) (temperature : ℚ) (max_tokens : Int),
        (generateMockResponse prompt system_prompt temperature max_tokens).mock_mode = true) ∧
      (∀ (prompt system_prompt : String) (temperature : ℚ) (max_tokens : Int)
          (reply : UpstreamReply),
        (generateRealResponse (.ok reply) prompt system_prompt temperature max_tokens).mock_mode
          = false ∧
        (generateRealResponse (.ok reply) prompt system_prompt temperature max_tokens).text
          = reply.text) :=
  ⟨fun _ _ _ _ _ => rfl, fun _ _ _ _ => rfl, fun _ _ _ _ _ => ⟨rfl, rfl⟩⟩

/-- The cached call pair: a second `generate_text` call with the same
signature and no intervening eviction hits the entry the first call
produced (or found). -/
lemma generateTextWith_second_call (st : ProviderState)
    (up1 up2 : Except Unit UpstreamReply) (prompt system_prompt : String)
    (temperature : ℚ) (max_tokens : Int) :
    generateTextWith (generateTextWith st up1 prompt system_prompt temperature max_tokens).2.1
        up2 prompt system_prompt temperature max_tokens
      = ((generateTextWith st up1 prompt system_prompt temperature max_tokens).1,
         (generateTextWith st up1 prompt system_prompt temperature max_tokens).2.1,
         false) := by
  unfold generateTextWith
  dsimp only
  cases h : cacheLookup st.cache (generateCacheKey prompt system_prompt temperature max_tokens) with
  | some cached => simp [h]
  | none => simp [h, cacheLookup]

/-- C10: two `generate_text` calls with an identical signature and no
intervening TTL expiry return the same entry — same text, same
`mock_mode` flag, same model id — the second call is a cache hit, and
the underlying generation computation (mock or real) runs at most once
across the two calls. -/
theorem c10_cache_idempotent (st : ProviderState)
    (up1 up2 : Except Unit UpstreamReply) (prompt system_prompt : String)
    (temperature? : Option ℚ) (max_tokens? : Option Int) :
    (generateText (generateText st up1 prompt system_prompt temperature? max_tokens?).2.1
        up2 prompt system_prompt temperature? max_tokens?).1
      = (generateText st up1 prompt system_prompt temperature? max_tokens?).1 ∧
      (generateText (generateText st up1 prompt system_prompt temperature? max_tokens?).2.1
          up2 prompt system_prompt temperature? max_tokens?).2.2 = false ∧
      (generateText st up1 prompt system_prompt temperature? max_tokens?).2.2.toNat +
        (generateText (generateText st up1 prompt system_prompt temperature? max_tokens?).2.1
          up2 prompt system_prompt temperature? max_tokens?).2.2.toNat ≤ 1 ∧
      (generateText (generateText st up1 prompt system_prompt temperature? max_tokens?).2.1
          up2 prompt system_prompt temperature? max_tokens?).1.text
        = (generateText st up1 prompt system_prompt temperature? max_tokens?).1.text ∧
      (generateText (generateText st up1 prompt system_prompt temperature? max_tokens?).2.1
          up2 prompt system_prompt temperature? max_tokens?).1.mock_mode
        = (generateText st up1 prompt system_prompt temperature? max_tokens?).1.mock_mode ∧
      (generateText (generateText st up1 prompt system_prompt temperature? max_tokens?).2.1
          up2 prompt system_prompt temperature? max_tokens?).1.model
        = (generateText st up1 prompt system_prompt temperature? max_tokens?).1.model := by
  have h := generateTextWith_second_call st up1 up2 prompt system_prompt
    (orDefaultTemperature temperature?) (orDefaultMaxTokens max_tokens?)
  unfold generateText
  rw [h]
  refine ⟨rfl, rfl, ?_, rfl, rfl, rfl⟩
  cases (generateTextWith st up1 prompt system_prompt (orDefaultTemperature temperature?)
      (orDefaultMaxTokens max_tokens?)).2.2 <;> simp

end Transcendence
